import Mathlib

/-!
A shallow embedding of the code-generation core of leetgo (package lang,
file gen.go), together with proofs about its dispatch orchestrator,
generator registry, template composer and file writer.

External collaborators (the leetcode.QuestionData metadata provider, the
config/viper configuration source, the survey interactive prompt, the
filesystem and the persisted state store) are modelled as explicit records
of values and functions threaded through every call, so that every
definition below is executable and the dispatch pipeline is a pure
function from its inputs to (result, final world, event trace).
-/

/-- Models strings.ToLower from the Go standard library: lowercase each
character of the string. -/
def lowerString (s : String) : String :=
  String.mk (s.data.map Char.toLower)

/-- Model of the external leetcode.QuestionData collaborator. Plain data
fields mirror the struct fields used by gen.go; accessor methods
(Url, ContestUrl, IsContest, GetTitle, GetFormattedContent,
GetCodeSnippet, GetFormattedFilename) are modelled as record fields
holding their results. -/
structure QuestionData where
  titleSlug : String
  questionFrontendId : String
  getTitle : String
  difficulty : String
  url : String
  contestUrl : String
  isContest : Bool
  getFormattedContent : String
  getCodeSnippet : String → String
  getFormattedFilename : String → String → Except String String

/-- Model of the configuration collaborator: the fields of config.Get()
and the viper lookups that gen.go reads. outDir models
viper.GetString of code.(lang).out_dir; filenameTemplateFor models
viper.GetString of code.(slug).filename_template; yes models
viper.GetBool of the global assume-yes flag. -/
structure Config where
  author : String
  codeBeginMark : String
  codeEndMark : String
  filenameTemplate : String
  lang : String
  projectRoot : String
  outDir : String → String
  filenameTemplateFor : String → String
  yes : Bool

/-- FileOutput from gen.go. The Generator back-reference field is
represented by the generator's slug (the only identifying datum the
claims inspect), keeping the structure decidable. -/
structure FileOutput where
  path : String
  content : String
  created : Bool
  generator : Option String
deriving DecidableEq

/-- The Testable optional capability of a generator. CheckLibrary is
side-effect free, so it is a plain Bool; GenerateLibrary's outcome is
the value its one invocation would return. RunTest is carried for
completeness. -/
structure Testable where
  checkLibrary : Bool
  generateLibrary : Except String Unit
  runTest : QuestionData → Except String Unit

/-- The Generator interface of gen.go: three names, a Generate function,
and the optional Testable capability (the Go type assertion
gen.(Testable) is modelled by the Option field). -/
structure Generator where
  name : String
  shortName : String
  slug : String
  generate : QuestionData → Except String (List FileOutput)
  testable : Option Testable

/-- The baseLang struct of gen.go: static per-language formatting facts. -/
structure baseLang where
  name : String
  slug : String
  shortName : String
  extension : String
  lineComment : String
  blockCommentStart : String
  blockCommentEnd : String

/-- Models strings.Join(lines, newline) from the Go standard library. -/
def joinLines : List String → String
  | [] => ""
  | [x] => x
  | x :: y :: xs => x ++ "\n" ++ joinLines (y :: xs)

/-- The content slice built by baseLang.generateComments, in order:
attribution line, url line, conditional contest-url line, blank line,
block-comment opener, id.title (difficulty) line, blank line, formatted
statement, block-comment closer, trailing empty entry. -/
def commentLines (l : baseLang) (cfg : Config) (now : String) (q : QuestionData) :
    List String :=
  [l.lineComment ++ " Created by " ++ cfg.author ++ " at " ++ now,
   l.lineComment ++ " " ++ q.url] ++
  (if q.isContest then [l.lineComment ++ " " ++ q.contestUrl] else []) ++
  ["",
   l.blockCommentStart,
   q.questionFrontendId ++ "." ++ q.getTitle ++ " (" ++ q.difficulty ++ ")",
   "",
   q.getFormattedContent,
   l.blockCommentEnd,
   ""]

/-- baseLang.generateComments from gen.go: join the comment lines with
newlines. The wall-clock reading time.Now().Format is modelled by the
explicit now argument; config.Get() by the explicit cfg argument. -/
def baseLang.generateComments (l : baseLang) (cfg : Config) (now : String)
    (q : QuestionData) : String :=
  joinLines (commentLines l cfg now q)

/-- The Modifier type of gen.go: a pure text transformer. -/
abbrev Modifier : Type := String → QuestionData → String

/-- baseLang.generateCode from gen.go: start from the question's snippet
for this language's slug and apply the modifiers in order. -/
def baseLang.generateCode (l : baseLang) (q : QuestionData)
    (modifiers : List Modifier) : String :=
  modifiers.foldl (fun code m => m code q) (q.getCodeSnippet l.slug)

/-- addCodeMark from gen.go: wrap the snippet between the configured
code-begin and code-end marks, each on its own comment line. -/
def addCodeMark (cfg : Config) (commentMark : String) : Modifier :=
  fun s _ =>
    commentMark ++ " " ++ cfg.codeBeginMark ++ "\n\n" ++ s ++ "\n\n" ++
      commentMark ++ " " ++ cfg.codeEndMark

/-- removeComments from gen.go (currently the identity transformer). -/
def removeComments : Modifier := fun code _ => code

/-- prepend from gen.go. -/
def prepend (s : String) : Modifier := fun code _ => s ++ code

/-- getFilenameTemplate from gen.go: the global template if set, else the
per-language viper override. -/
def getFilenameTemplate (cfg : Config) (slug : String) : String :=
  if cfg.filenameTemplate ≠ "" then cfg.filenameTemplate
  else cfg.filenameTemplateFor slug

/-- baseLang.Generate from gen.go: compose header and code, derive the
file name from the template, and return a single FileOutput. -/
def baseLang.Generate (l : baseLang) (cfg : Config) (now : String)
    (q : QuestionData) : Except String (List FileOutput) :=
  let comment := l.generateComments cfg now q
  let code := l.generateCode q [addCodeMark cfg l.lineComment]
  let content := comment ++ "\n" ++ code ++ "\n"
  match q.getFormattedFilename l.slug (getFilenameTemplate cfg l.slug) with
  | Except.error e => Except.error e
  | Except.ok baseFilename =>
      Except.ok [{ path := baseFilename ++ "." ++ l.extension,
                   content := content, created := false, generator := none }]

/-- GetGenerator from gen.go. The package-level SupportedLangs registry is
declared outside this file's source, so it is taken as an explicit
ordered list; strings.HasPrefix is modelled character-wise by
List.isPrefixOf on the character data. -/
def GetGenerator (supportedLangs : List Generator) (gen : String) : Option Generator :=
  let g := lowerString gen
  supportedLangs.find? (fun l =>
    g.data.isPrefixOf l.shortName.data || g.data.isPrefixOf l.slug.data)

/-- The predicate GetGenerator scans with: the lowercased identifier is a
character-wise prefix of the generator's shortName or of its slug. -/
def matchesIdentifier (ident : String) (l : Generator) : Bool :=
  (lowerString ident).data.isPrefixOf l.shortName.data ||
    (lowerString ident).data.isPrefixOf l.slug.data

/-- The persisted config.LastGeneratedQuestion record. -/
structure LastGeneratedQuestion where
  slug : String
  frontendID : String
  gen : String
deriving DecidableEq

/-- The persisted state record manipulated through config.LoadState and
config.SaveState; gen.go touches only the LastGenerated field. -/
structure GenState where
  lastGenerated : Option LastGeneratedQuestion
deriving DecidableEq

/-- A snapshot of the filesystem: file contents by path, none if absent
(utils.IsExist is membership in this map). -/
structure FS where
  files : String → Option String

/-- The mutable world the dispatch call reads and writes: the filesystem
and the persisted state store. -/
structure World where
  fs : FS
  state : GenState

/-- Environment of injected outcomes for the effectful collaborators of
tryWrite: askOne gives the result of the survey.AskOne overwrite
confirmation for a path (an error models failed prompt I/O), createErr
an error from utils.CreateIfNotExists if any, writeErr an error from
os.WriteFile if any. -/
structure FSEnv where
  askOne : String → Except String Bool
  createErr : String → Option String
  writeErr : String → Option String

/-- tryWrite from gen.go: write defaults to true; when the file exists and
assume-yes is off, the interactive confirmation decides (its I/O error
aborts this write with an error); a declined write is a no-op returning
false with no error; otherwise create parents and write the bytes,
failing if either filesystem step fails. -/
def tryWrite (env : FSEnv) (yes : Bool) (fs : FS) (file : String)
    (content : String) : Except String Bool × FS :=
  let askRes : Except String Bool :=
    if (fs.files file).isSome then
      if yes then Except.ok true else env.askOne file
    else Except.ok true
  match askRes with
  | Except.error e => (Except.error e, fs)
  | Except.ok write =>
      if !write then (Except.ok false, fs)
      else
        match env.createErr file with
        | some e => (Except.error e, fs)
        | none =>
            match env.writeErr file with
            | some e => (Except.error e, fs)
            | none =>
                (Except.ok true,
                 { files := fun p => if p = file then some content else fs.files p })

/-- Observable events of one dispatch call, used to state ordering
properties: the CheckLibrary probe, the GenerateLibrary bootstrap, the
generator's Generate call, each tryWrite attempt, and the SaveState
persistence of the LastGenerated record. -/
inductive Event where
  | checkLibrary : Event
  | generateLibrary : Event
  | generateCall : Event
  | tryWriteCall : String → Event
  | saveState : Event
deriving DecidableEq

/-- The Testable bootstrap step of Generate in gen.go: when the generator
has the capability and CheckLibrary reports the library absent, invoke
GenerateLibrary once; return its error if any, plus the trace of
capability calls made. -/
def bootstrapLibrary (gen : Generator) : Option String × List Event :=
  match gen.testable with
  | none => (none, [])
  | some t =>
      if !t.checkLibrary then
        match t.generateLibrary with
        | Except.error e => (some e, [Event.checkLibrary, Event.generateLibrary])
        | Except.ok _ => (none, [Event.checkLibrary, Event.generateLibrary])
      else (none, [Event.checkLibrary])

/-- Models filepath.Join of the listed components. -/
def joinPath (parts : List String) : String :=
  String.intercalate "/" parts

/-- The output directory computed by Generate in gen.go: the per-language
viper override, defaulting to the language identifier itself. -/
def outputDir (cfg : Config) : String :=
  if cfg.outDir cfg.lang = "" then cfg.lang else cfg.outDir cfg.lang

/-- The per-output mutation done at the top of Generate's write loop:
replace the relative path by the absolute one and attach the generator
reference. -/
def placeOutput (cfg : Config) (genSlug : String) (f : FileOutput) : FileOutput :=
  { f with path := joinPath [cfg.projectRoot, outputDir cfg, f.path],
           generator := some genSlug }

/-- The write loop of Generate in gen.go: attempt tryWrite for each output
in order; on error, log and continue leaving the output untouched; on
success record the created flag. Returns the updated outputs, the final
filesystem, and one tryWrite event per output. -/
def writeLoop (env : FSEnv) (yes : Bool) :
    List FileOutput → FS → List FileOutput × FS × List Event
  | [], fs => ([], fs, [])
  | f :: rest, fs =>
      let r := tryWrite env yes fs f.path f.content
      let f' := match r.1 with
        | Except.error _ => f
        | Except.ok written => { f with created := written }
      let tail := writeLoop env yes rest r.2
      (f' :: tail.1, tail.2.1, Event.tryWriteCall f.path :: tail.2.2)

/-- The package-level Generate dispatch of gen.go: resolve the generator,
check the snippet, bootstrap the library if needed, call the
generator's Generate, write every output, and persist the
LastGenerated record. Returns the outputs (or the first fatal error),
the final world, and the event trace. -/
def Generate (supportedLangs : List Generator) (cfg : Config) (env : FSEnv)
    (w : World) (q : QuestionData) :
    Except String (List FileOutput) × World × List Event :=
  match GetGenerator supportedLangs cfg.lang with
  | none =>
      (Except.error ("language " ++ cfg.lang ++
        " is not supported yet, welcome to send a PR"), w, [])
  | some gen =>
      if q.getCodeSnippet gen.slug = "" then
        (Except.error ("no " ++ cfg.lang ++ " code snippet found for " ++
          q.titleSlug), w, [])
      else
        match (bootstrapLibrary gen).1 with
        | some e => (Except.error e, w, (bootstrapLibrary gen).2)
        | none =>
            match gen.generate q with
            | Except.error e =>
                (Except.error e, w, (bootstrapLibrary gen).2 ++ [Event.generateCall])
            | Except.ok files =>
                let placed := files.map (placeOutput cfg gen.slug)
                let written := writeLoop env cfg.yes placed w.fs
                let lastGen := LastGeneratedQuestion.mk q.titleSlug q.questionFrontendId gen.slug
                (Except.ok written.1,
                 { fs := written.2.1,
                   state := { lastGenerated := some lastGen } },
                 (bootstrapLibrary gen).2 ++ [Event.generateCall] ++
                   written.2.2 ++ [Event.saveState])

/-- Packaging of a baseLang as a Generator, as the language plugins of the
repository do: the three names and the Generate method, with no
Testable capability by default. -/
def baseLang.toGenerator (l : baseLang) (cfg : Config) (now : String) : Generator :=
  { name := l.name, shortName := l.shortName, slug := l.slug,
    generate := fun q => baseLang.Generate l cfg now q, testable := none }

/-- A representative baseLang, with Go's formatting facts. -/
def goLang : baseLang :=
  { name := "Go", slug := "golang", shortName := "go", extension := "go",
    lineComment := "//", blockCommentStart := "/*", blockCommentEnd := "*/" }

/-- A small concrete configuration used by the concrete instances below. -/
def xCfg : Config :=
  { author := "a", codeBeginMark := "b", codeEndMark := "e",
    filenameTemplate := "", lang := "x", projectRoot := "r",
    outDir := fun _ => "", filenameTemplateFor := fun _ => "", yes := true }

/-- A small concrete question used by the concrete instances below. -/
def xQ : QuestionData :=
  { titleSlug := "t", questionFrontendId := "1", getTitle := "T",
    difficulty := "E", url := "u", contestUrl := "", isContest := false,
    getFormattedContent := "c", getCodeSnippet := fun _ => "s",
    getFormattedFilename := fun _ _ => Except.ok "f" }

def fileA : FileOutput := { path := "a", content := "alpha", created := false, generator := none }

def fileB : FileOutput := { path := "b", content := "beta", created := false, generator := none }

/-- A concrete generator named x producing two outputs. -/
def xGen : Generator :=
  { name := "X", shortName := "x", slug := "x",
    generate := fun _ => Except.ok [fileA, fileB], testable := none }

/-- A concrete generator named x producing one output. -/
def oneGen : Generator :=
  { name := "X", shortName := "x", slug := "x",
    generate := fun _ => Except.ok [fileA], testable := none }

def benignEnv : FSEnv :=
  { askOne := fun _ => Except.ok true, createErr := fun _ => none, writeErr := fun _ => none }

/-- An environment whose create step fails on the first output's path. -/
def failCreateEnv : FSEnv :=
  { askOne := fun _ => Except.ok true,
    createErr := fun p => if p = "r/x/a" then some "disk full" else none,
    writeErr := fun _ => none }

/-- An environment whose interactive confirmation fails. -/
def promptFailEnv : FSEnv :=
  { askOne := fun _ => Except.error "pipe closed",
    createErr := fun _ => none, writeErr := fun _ => none }

/-- An environment whose interactive confirmation declines. -/
def declineEnv : FSEnv :=
  { askOne := fun _ => Except.ok false,
    createErr := fun _ => none, writeErr := fun _ => none }

def emptyWorld : World :=
  { fs := { files := fun _ => none }, state := { lastGenerated := none } }

/-- A filesystem already holding the absolute path of output fileA. -/
def fsWithA : FS := { files := fun p => if p = "r/x/a" then some "old" else none }

def worldWithA : World := { fs := fsWithA, state := { lastGenerated := none } }

def cfgNoYes : Config := { xCfg with yes := false }

/-- A question with no starter snippet for any language. -/
def xQEmpty : QuestionData := { xQ with getCodeSnippet := fun _ => "" }

/-- A Testable capability whose library is absent and whose bootstrap fails. -/
def failLib : Testable :=
  { checkLibrary := false, generateLibrary := Except.error "copy failed",
    runTest := fun _ => Except.ok () }

/-- A Testable generator with the failing bootstrap. -/
def tGen : Generator :=
  { name := "T", shortName := "tt", slug := "tlang",
    generate := fun _ => Except.ok [fileA], testable := some failLib }

def tCfg : Config := { xCfg with lang := "tlang" }

def pyGen : Generator :=
  { name := "Python", shortName := "py", slug := "python3",
    generate := fun _ => Except.ok [], testable := none }

def golGen : Generator :=
  { name := "Go", shortName := "go", slug := "golang",
    generate := fun _ => Except.ok [], testable := none }

/-- A two-entry registry in registration order. -/
def demoLangs : List Generator := [pyGen, golGen]

theorem joinLines_append_empty : ∀ (xs : List String), xs ≠ [] →
    joinLines (xs ++ [""]) = joinLines xs ++ "\n" := by
  intro xs
  induction xs with
  | nil => intro h; exact absurd rfl h
  | cons x xs ih =>
      intro _
      cases xs with
      | nil => simp [joinLines, String.append_empty]
      | cons y ys =>
          have h2 := ih (by simp)
          simp only [List.cons_append] at h2 ⊢
          simp only [joinLines] at h2 ⊢
          rw [h2]
          simp [String.append_assoc]

theorem commentLines_decomp (l : baseLang) (cfg : Config) (now : String)
    (q : QuestionData) :
    ∃ xs, commentLines l cfg now q = xs ++ [""] ∧ xs ≠ [] := by
  refine ⟨[l.lineComment ++ " Created by " ++ cfg.author ++ " at " ++ now,
    l.lineComment ++ " " ++ q.url] ++
    (if q.isContest then [l.lineComment ++ " " ++ q.contestUrl] else []) ++
    ["",
     l.blockCommentStart,
     q.questionFrontendId ++ "." ++ q.getTitle ++ " (" ++ q.difficulty ++ ")",
     "",
     q.getFormattedContent,
     l.blockCommentEnd], ?_, by simp⟩
  simp [commentLines]

theorem generateComments_trailing_newline (l : baseLang) (cfg : Config) (now : String)
    (q : QuestionData) :
    ∃ hb, baseLang.generateComments l cfg now q = hb ++ "\n" := by
  obtain ⟨xs, hx, hne⟩ := commentLines_decomp l cfg now q
  refine ⟨joinLines xs, ?_⟩
  unfold baseLang.generateComments
  rw [hx, joinLines_append_empty xs hne]

theorem find_first_match {α : Type} (p : α → Bool) :
    ∀ (l : List α) (a : α), List.find? p l = some a →
      ∃ pre post, l = pre ++ a :: post ∧ p a = true ∧ ∀ x ∈ pre, p x = false := by
  intro l
  induction l with
  | nil => intro a h; simp at h
  | cons b t ih =>
      intro a h
      by_cases hp : p b = true
      · rw [List.find?_cons_of_pos t hp] at h
        have hba := Option.some.inj h
        subst hba
        exact ⟨[], t, rfl, hp, by simp⟩
      · rw [List.find?_cons_of_neg t hp] at h
        obtain ⟨pre, post, heq, hpa, hall⟩ := ih a h
        refine ⟨b :: pre, post, by rw [heq]; rfl, hpa, ?_⟩
        intro x hx
        rcases List.mem_cons.mp hx with h1 | h2
        · rw [h1]
          exact Bool.not_eq_true _ ▸ (by simpa using hp)
        · exact hall x h2

theorem writeLoop_length (env : FSEnv) (yes : Bool) :
    ∀ (files : List FileOutput) (fs : FS),
      (writeLoop env yes files fs).1.length = files.length := by
  intro files
  induction files with
  | nil => intro fs; rfl
  | cons f rest ih => intro fs; simp [writeLoop, ih]

theorem writeLoop_events (env : FSEnv) (yes : Bool) :
    ∀ (files : List FileOutput) (fs : FS),
      (writeLoop env yes files fs).2.2 =
        files.map (fun f => Event.tryWriteCall f.path) := by
  intro files
  induction files with
  | nil => intro fs; rfl
  | cons f rest ih => intro fs; simp [writeLoop, ih]

theorem writeLoop_append (env : FSEnv) (yes : Bool) :
    ∀ (as bs : List FileOutput) (fs : FS),
      writeLoop env yes (as ++ bs) fs =
        ((writeLoop env yes as fs).1 ++
           (writeLoop env yes bs (writeLoop env yes as fs).2.1).1,
         (writeLoop env yes bs (writeLoop env yes as fs).2.1).2.1,
         (writeLoop env yes as fs).2.2 ++
           (writeLoop env yes bs (writeLoop env yes as fs).2.1).2.2) := by
  intro as
  induction as with
  | nil => intro bs fs; simp [writeLoop]
  | cons a as ih => intro bs fs; simp [writeLoop, ih]

theorem writeLoop_head_error (env : FSEnv) (yes : Bool) (f : FileOutput)
    (rest : List FileOutput) (fs : FS) (e : String)
    (herr : (tryWrite env yes fs f.path f.content).1 = Except.error e) :
    (writeLoop env yes (f :: rest) fs).1 =
      f :: (writeLoop env yes rest (tryWrite env yes fs f.path f.content).2).1 := by
  simp [writeLoop, herr]

theorem generate_unfold_ok (supportedLangs : List Generator) (cfg : Config)
    (env : FSEnv) (w : World) (q : QuestionData) (gen : Generator)
    (files : List FileOutput)
    (hgen : GetGenerator supportedLangs cfg.lang = some gen)
    (hsnip : ¬ q.getCodeSnippet gen.slug = "")
    (hboot : (bootstrapLibrary gen).1 = none)
    (hgenok : gen.generate q = Except.ok files) :
    Generate supportedLangs cfg env w q =
      (Except.ok (writeLoop env cfg.yes (files.map (placeOutput cfg gen.slug)) w.fs).1,
       { fs := (writeLoop env cfg.yes (files.map (placeOutput cfg gen.slug)) w.fs).2.1,
         state := { lastGenerated := some (LastGeneratedQuestion.mk q.titleSlug q.questionFrontendId gen.slug) } },
       (bootstrapLibrary gen).2 ++ [Event.generateCall] ++
         (writeLoop env cfg.yes (files.map (placeOutput cfg gen.slug)) w.fs).2.2 ++
         [Event.saveState]) := by
  unfold Generate
  rw [hgen]
  simp only [hboot, hgenok, if_neg hsnip]

/-- C1: when the configured language resolves to a generator whose starter
snippet on the question is empty, the dispatch Generate returns exactly the
no-snippet-found error, the world (filesystem and persisted LastGenerated
record) is returned unchanged, and the empty event trace shows that no
write attempt and no state save took place. -/
theorem generate_snippetMissing_aborts_clean (supportedLangs : List Generator)
    (cfg : Config) (env : FSEnv) (w : World) (q : QuestionData) (gen : Generator)
    (hgen : GetGenerator supportedLangs cfg.lang = some gen)
    (hsnip : q.getCodeSnippet gen.slug = "") :
    Generate supportedLangs cfg env w q =
      (Except.error ("no " ++ cfg.lang ++ " code snippet found for " ++ q.titleSlug),
       w, []) := by
  unfold Generate
  rw [hgen]
  simp [hsnip]

/-- Witness for C1 at a concrete registry, question and world. -/
theorem generate_snippetMissing_aborts_clean_witness :
    Generate [xGen] xCfg benignEnv emptyWorld xQEmpty =
      (Except.error ("no " ++ xCfg.lang ++ " code snippet found for " ++ xQEmpty.titleSlug),
       emptyWorld, []) :=
  generate_snippetMissing_aborts_clean [xGen] xCfg benignEnv emptyWorld xQEmpty xGen rfl rfl

/-- C2 counterexample: with the question metadata and the configuration both
held fixed, two calls of baseLang.Generate made at different wall-clock
minutes produce different bytes, because the header embeds the formatted
current time; so the output is not a function of metadata and
configuration alone. -/
theorem generate_content_depends_on_clock :
    (baseLang.Generate goLang xCfg "2024/05/05 12:00" xQ).toOption ≠
      (baseLang.Generate goLang xCfg "2024/05/05 12:01" xQ).toOption := by decide

/-- C2 (amended): given identical problem metadata, configuration and
clock reading, baseLang.Generate produces byte-identical FileOutput
content across repeated calls. -/
theorem generate_deterministic_given_timestamp (l : baseLang) (cfg : Config)
    (now : String) (q₁ q₂ : QuestionData) (h : q₁ = q₂) :
    baseLang.Generate l cfg now q₁ = baseLang.Generate l cfg now q₂ := by
  rw [h]

/-- Witness for the amended C2 at a concrete language, configuration,
timestamp and question. -/
theorem generate_deterministic_given_timestamp_witness :
    baseLang.Generate goLang xCfg "n" xQ = baseLang.Generate goLang xCfg "n" xQ :=
  generate_deterministic_given_timestamp goLang xCfg "n" xQ xQ rfl

/-- C5: generator resolution is case-insensitive (it depends on the
identifier only through its lowercasing), a successful lookup returns the
first generator in registration order matched by the lowercased
identifier as a prefix of shortName or slug with every earlier entry not
matching, and when resolution finds nothing the dispatch fails with the
language-unsupported error naming the identifier. -/
theorem getGenerator_resolution_spec (supportedLangs : List Generator) (cfg : Config)
    (env : FSEnv) (w : World) (q : QuestionData) :
    (∀ s₁ s₂ : String, lowerString s₁ = lowerString s₂ →
      GetGenerator supportedLangs s₁ = GetGenerator supportedLangs s₂) ∧
    (∀ (s : String) (g : Generator), GetGenerator supportedLangs s = some g →
      matchesIdentifier s g = true ∧
      ∃ pre post, supportedLangs = pre ++ g :: post ∧
        ∀ x ∈ pre, matchesIdentifier s x = false) ∧
    (GetGenerator supportedLangs cfg.lang = none →
      (Generate supportedLangs cfg env w q).1 = Except.error
        ("language " ++ cfg.lang ++ " is not supported yet, welcome to send a PR")) := by
  refine ⟨?_, ?_, ?_⟩
  · intro s₁ s₂ h
    unfold GetGenerator
    rw [h]
  · intro s g h
    have h2 : List.find? (matchesIdentifier s) supportedLangs = some g := h
    obtain ⟨pre, post, heq, hg, hall⟩ := find_first_match (matchesIdentifier s) supportedLangs g h2
    exact ⟨hg, pre, post, heq, hall⟩
  · intro h
    unfold Generate
    rw [h]

/-- Witness for C5: case-insensitivity at identifiers PY and py over the
two-entry registry, and the unsupported-language failure at the concrete
identifier x that matches neither registered generator. -/
theorem getGenerator_resolution_spec_witness :
    GetGenerator demoLangs "PY" = GetGenerator demoLangs "py" ∧
    (Generate demoLangs xCfg benignEnv emptyWorld xQ).1 = Except.error
      ("language " ++ xCfg.lang ++ " is not supported yet, welcome to send a PR") :=
  ⟨(getGenerator_resolution_spec demoLangs xCfg benignEnv emptyWorld xQ).1 "PY" "py" (by decide),
   (getGenerator_resolution_spec demoLangs xCfg benignEnv emptyWorld xQ).2.2 rfl⟩

/-- C6: whenever baseLang.Generate succeeds it returns exactly one
FileOutput whose content is the header followed by one newline, the
modifier-wrapped code and one trailing newline; and the header itself ends
in a newline, so the header block and code block are separated by exactly
the blank line the claim describes. -/
theorem generate_content_header_blank_code (l : baseLang) (cfg : Config) (now : String)
    (q : QuestionData) (files : List FileOutput)
    (h : baseLang.Generate l cfg now q = Except.ok files) :
    ∃ f headerBody,
      files = [f] ∧
      f.content = baseLang.generateComments l cfg now q ++ "\n" ++
        baseLang.generateCode l q [addCodeMark cfg l.lineComment] ++ "\n" ∧
      baseLang.generateComments l cfg now q = headerBody ++ "\n" := by
  obtain ⟨hb, hhb⟩ := generateComments_trailing_newline l cfg now q
  unfold baseLang.Generate at h
  cases hf : q.getFormattedFilename l.slug (getFilenameTemplate cfg l.slug) with
  | error e =>
      rw [hf] at h
      simp at h
  | ok base =>
      rw [hf] at h
      simp only [] at h
      have h2 := Except.ok.inj h
      refine ⟨_, hb, h2.symm, ?_, hhb⟩
      rfl

/-- Witness for C6 at a concrete language, configuration and question,
with the fully evaluated file content. -/
theorem generate_content_header_blank_code_witness :
    ∃ f headerBody,
      ([{ path := "f.go",
          content := "// Created by a at n\n// u\n\n/*\n1.T (E)\n\nc\n*/\n\n// b\n\ns\n\n// e\n",
          created := false, generator := none }] : List FileOutput) = [f] ∧
      f.content = baseLang.generateComments goLang xCfg "n" xQ ++ "\n" ++
        baseLang.generateCode goLang xQ [addCodeMark xCfg goLang.lineComment] ++ "\n" ∧
      baseLang.generateComments goLang xCfg "n" xQ = headerBody ++ "\n" :=
  generate_content_header_blank_code goLang xCfg "n" xQ _ rfl

/-- C7: with assume-yes disabled, the target file existing and the user
declining the confirmation, tryWrite performs no write (it returns the
filesystem unchanged, so the existing bytes are untouched), reports
created false, and raises no error. -/
theorem tryWrite_decline_noop (env : FSEnv) (fs : FS) (file content old : String)
    (hexist : fs.files file = some old)
    (hask : env.askOne file = Except.ok false) :
    tryWrite env false fs file content = (Except.ok false, fs) := by
  unfold tryWrite
  rw [hexist]
  simp [hask]

/-- Witness for C7 at a concrete filesystem holding the target file and a
declining prompt. -/
theorem tryWrite_decline_noop_witness :
    tryWrite declineEnv false fsWithA "r/x/a" "alpha" = (Except.ok false, fsWithA) :=
  tryWrite_decline_noop declineEnv fsWithA "r/x/a" "alpha" "old" rfl rfl

/-- C10: the empty identifier matches every generator, because the empty
string is a prefix of every shortName; so on any non-empty registry,
resolution of the empty identifier returns the first registered generator
instead of reporting not-found. -/
theorem getGenerator_empty_identifier_first (g : Generator) (rest : List Generator) :
    GetGenerator (g :: rest) "" = some g := by
  unfold GetGenerator
  apply List.find?_cons_of_pos
  show ((lowerString "").data.isPrefixOf g.shortName.data ||
    (lowerString "").data.isPrefixOf g.slug.data) = true
  have hd : (lowerString "").data = [] := rfl
  rw [hd]
  simp [List.isPrefixOf]

/-- C3 counterexample: at a concrete run where the interactive overwrite
confirmation fails (the prompt collaborator returns an error), the
dispatch does not abort: it returns success with the output left
not-created, and the LastGenerated record is persisted. -/
theorem promptFailure_does_not_abort_dispatch :
    (Generate [oneGen] cfgNoYes promptFailEnv worldWithA xQ).1.toOption =
      some [{ path := "r/x/a", content := "alpha", created := false, generator := some "x" }] ∧
    (Generate [oneGen] cfgNoYes promptFailEnv worldWithA xQ).2.1.state.lastGenerated =
      some (LastGeneratedQuestion.mk "t" "1" "x") :=
  ⟨by decide, by decide⟩

/-- C3 (amended): when the interactive confirmation fails for an output,
the dispatch treats it like any other tryWrite failure: the failure is
logged and skipped, that output is returned untouched (its created flag
still false), the remaining outputs are still processed, the
LastGenerated record is persisted, and the call returns success. -/
theorem promptFailure_logged_and_skipped (supportedLangs : List Generator) (cfg : Config)
    (env : FSEnv) (w : World) (q : QuestionData) (gen : Generator)
    (files : List FileOutput) (f : FileOutput) (rest : List FileOutput) (e : String)
    (hgen : GetGenerator supportedLangs cfg.lang = some gen)
    (hsnip : ¬ q.getCodeSnippet gen.slug = "")
    (hboot : (bootstrapLibrary gen).1 = none)
    (hgenok : gen.generate q = Except.ok files)
    (hmap : files.map (placeOutput cfg gen.slug) = f :: rest)
    (hyes : cfg.yes = false)
    (hexist : (w.fs.files f.path).isSome = true)
    (hask : env.askOne f.path = Except.error e) :
    (∃ out, (Generate supportedLangs cfg env w q).1 = Except.ok (f :: out) ∧
      out.length = rest.length) ∧
    (Generate supportedLangs cfg env w q).2.1.state.lastGenerated =
      some (LastGeneratedQuestion.mk q.titleSlug q.questionFrontendId gen.slug) := by
  have hgeq := generate_unfold_ok supportedLangs cfg env w q gen files hgen hsnip hboot hgenok
  have herr : (tryWrite env cfg.yes w.fs f.path f.content).1 = Except.error e := by
    unfold tryWrite
    rw [hexist, hyes]
    simp [hask]
  refine ⟨⟨(writeLoop env cfg.yes rest (tryWrite env cfg.yes w.fs f.path f.content).2).1, ?_, ?_⟩, ?_⟩
  · rw [hgeq]
    simp only [hmap]
    rw [writeLoop_head_error env cfg.yes f rest w.fs e herr]
  · rw [writeLoop_length]
  · rw [hgeq]

/-- Witness for the amended C3 at the concrete prompt-failure run. -/
theorem promptFailure_logged_and_skipped_witness :
    (∃ out, (Generate [oneGen] cfgNoYes promptFailEnv worldWithA xQ).1 =
        Except.ok (placeOutput cfgNoYes "x" fileA :: out) ∧
      out.length = ([] : List FileOutput).length) ∧
    (Generate [oneGen] cfgNoYes promptFailEnv worldWithA xQ).2.1.state.lastGenerated =
      some (LastGeneratedQuestion.mk "t" "1" "x") :=
  promptFailure_logged_and_skipped [oneGen] cfgNoYes promptFailEnv worldWithA xQ oneGen
    [fileA] (placeOutput cfgNoYes "x" fileA) [] "pipe closed"
    rfl (by decide) rfl rfl rfl rfl (by decide) rfl

/-- C4: for a resolved Testable generator whose CheckLibrary reports the
library absent, the event trace counts exactly one GenerateLibrary
invocation; whenever the generator's Generate is invoked at all, the
trace begins CheckLibrary, GenerateLibrary, Generate in that order; and
when GenerateLibrary fails, the dispatch returns its error with the world
unchanged and a trace showing Generate was never called and no FileOutput
was written. -/
theorem count_generateLibrary_writeLoop (env : FSEnv) (yes : Bool)
    (files : List FileOutput) (fs : FS) :
    List.count Event.generateLibrary (writeLoop env yes files fs).2.2 = 0 := by
  rw [writeLoop_events, List.count_eq_zero]
  simp

theorem bootstrap_before_generate (supportedLangs : List Generator) (cfg : Config)
    (env : FSEnv) (w : World) (q : QuestionData) (gen : Generator) (t : Testable)
    (hgen : GetGenerator supportedLangs cfg.lang = some gen)
    (hsnip : ¬ q.getCodeSnippet gen.slug = "")
    (ht : gen.testable = some t)
    (habs : t.checkLibrary = false) :
    List.count Event.generateLibrary (Generate supportedLangs cfg env w q).2.2 = 1 ∧
    (Event.generateCall ∈ (Generate supportedLangs cfg env w q).2.2 →
      List.take 3 (Generate supportedLangs cfg env w q).2.2 =
        [Event.checkLibrary, Event.generateLibrary, Event.generateCall]) ∧
    (∀ e, t.generateLibrary = Except.error e →
      Generate supportedLangs cfg env w q =
        (Except.error e, w, [Event.checkLibrary, Event.generateLibrary])) := by
  cases hgl : t.generateLibrary with
  | error e0 =>
      have hb1 : (bootstrapLibrary gen).1 = some e0 := by
        simp [bootstrapLibrary, ht, habs, hgl]
      have hb2 : (bootstrapLibrary gen).2 = [Event.checkLibrary, Event.generateLibrary] := by
        simp [bootstrapLibrary, ht, habs, hgl]
      have hgeq : Generate supportedLangs cfg env w q =
          (Except.error e0, w, (bootstrapLibrary gen).2) := by
        unfold Generate
        rw [hgen]
        simp only [if_neg hsnip, hb1]
      rw [hgeq, hb2]
      refine ⟨by decide, by decide, ?_⟩
      intro e he
      injection he with h
      subst h
      rfl
  | ok u =>
      have hb1 : (bootstrapLibrary gen).1 = none := by
        simp [bootstrapLibrary, ht, habs, hgl]
      have hb2 : (bootstrapLibrary gen).2 = [Event.checkLibrary, Event.generateLibrary] := by
        simp [bootstrapLibrary, ht, habs, hgl]
      cases hg2 : gen.generate q with
      | error e1 =>
          have hgeq : Generate supportedLangs cfg env w q =
              (Except.error e1, w, (bootstrapLibrary gen).2 ++ [Event.generateCall]) := by
            unfold Generate
            rw [hgen]
            simp only [if_neg hsnip, hb1, hg2]
          rw [hgeq, hb2]
          dsimp only
          refine ⟨by decide, by decide, ?_⟩
          intro e he
          simp at he
      | ok files =>
          have hgeq := generate_unfold_ok supportedLangs cfg env w q gen files hgen hsnip hb1 hg2
          rw [hgeq, hb2]
          dsimp only
          refine ⟨?_, ?_, ?_⟩
          · simp only [List.count_append, count_generateLibrary_writeLoop]
            decide
          · intro _
            have hshape : ([Event.checkLibrary, Event.generateLibrary] ++ [Event.generateCall] ++
                (writeLoop env cfg.yes (files.map (placeOutput cfg gen.slug)) w.fs).2.2 ++
                [Event.saveState]) =
                Event.checkLibrary :: Event.generateLibrary :: Event.generateCall ::
                  ((writeLoop env cfg.yes (files.map (placeOutput cfg gen.slug)) w.fs).2.2 ++
                    [Event.saveState]) := by
              simp
            rw [hshape]
            rfl
          · intro e he
            simp at he

/-- Witness for C4 at a concrete Testable generator whose bootstrap fails. -/
theorem bootstrap_before_generate_witness :
    Generate [tGen] tCfg benignEnv emptyWorld xQ =
      (Except.error "copy failed", emptyWorld, [Event.checkLibrary, Event.generateLibrary]) :=
  (bootstrap_before_generate [tGen] tCfg benignEnv emptyWorld xQ tGen failLib
    rfl (by decide) rfl rfl).2.2 "copy failed" rfl

/-- C8: when the generator has produced its outputs, the dispatch call
returns success with one returned entry per output no matter how the
individual writes fare, the trace records one tryWrite attempt per output
in output order, and an output whose own write attempt fails (given the
filesystem state its predecessors left) passes through the write loop
unchanged, so its created flag stays false while every sibling is still
processed. -/
theorem write_failure_isolated (supportedLangs : List Generator) (cfg : Config)
    (env : FSEnv) (w : World) (q : QuestionData) (gen : Generator)
    (files : List FileOutput)
    (hgen : GetGenerator supportedLangs cfg.lang = some gen)
    (hsnip : ¬ q.getCodeSnippet gen.slug = "")
    (hboot : (bootstrapLibrary gen).1 = none)
    (hgenok : gen.generate q = Except.ok files) :
    (∃ out, (Generate supportedLangs cfg env w q).1 = Except.ok out ∧
      out.length = files.length) ∧
    ((Generate supportedLangs cfg env w q).2.2 =
      (bootstrapLibrary gen).2 ++ [Event.generateCall] ++
        (files.map (placeOutput cfg gen.slug)).map (fun f => Event.tryWriteCall f.path) ++
        [Event.saveState]) ∧
    (∀ (pre : List FileOutput) (f : FileOutput) (post : List FileOutput) (e : String) (fs₀ : FS),
      files.map (placeOutput cfg gen.slug) = pre ++ f :: post →
      (tryWrite env cfg.yes (writeLoop env cfg.yes pre fs₀).2.1 f.path f.content).1 =
        Except.error e →
      ((writeLoop env cfg.yes (files.map (placeOutput cfg gen.slug)) fs₀).1[pre.length]? =
         some f ∧
       (writeLoop env cfg.yes (files.map (placeOutput cfg gen.slug)) fs₀).1.length =
         (files.map (placeOutput cfg gen.slug)).length)) := by
  have hgeq := generate_unfold_ok supportedLangs cfg env w q gen files hgen hsnip hboot hgenok
  refine ⟨?_, ?_, ?_⟩
  · refine ⟨(writeLoop env cfg.yes (files.map (placeOutput cfg gen.slug)) w.fs).1, ?_, ?_⟩
    · rw [hgeq]
    · rw [writeLoop_length]
      simp
  · rw [hgeq]
    rw [writeLoop_events]
  · intro pre f post e fs₀ hmap herr
    constructor
    · rw [hmap, writeLoop_append]
      have hlen : (writeLoop env cfg.yes pre fs₀).1.length = pre.length :=
        writeLoop_length env cfg.yes pre fs₀
      rw [List.getElem?_append_right (by rw [hlen])]
      rw [hlen, Nat.sub_self]
      rw [writeLoop_head_error env cfg.yes f post (writeLoop env cfg.yes pre fs₀).2.1 e herr]
      simp
    · rw [hmap, writeLoop_length]

/-- Witness for C8 at a concrete run whose first write fails at the
filesystem-create step while the second succeeds. -/
theorem write_failure_isolated_witness :
    ∃ out, (Generate [xGen] xCfg failCreateEnv emptyWorld xQ).1 = Except.ok out ∧
      out.length = ([fileA, fileB] : List FileOutput).length :=
  (write_failure_isolated [xGen] xCfg failCreateEnv emptyWorld xQ xGen [fileA, fileB]
    rfl (by decide) rfl rfl).1

/-- C9: once the generator's Generate has returned outputs, the dispatch
persists the LastGenerated record wholesale (problem slug, numeric
frontend id, generator slug) and emits the SaveState event regardless of
how the individual file writes turn out, since the environment of write
outcomes is universally quantified here. -/
theorem state_persisted_after_generate (supportedLangs : List Generator) (cfg : Config)
    (env : FSEnv) (w : World) (q : QuestionData) (gen : Generator)
    (files : List FileOutput)
    (hgen : GetGenerator supportedLangs cfg.lang = some gen)
    (hsnip : ¬ q.getCodeSnippet gen.slug = "")
    (hboot : (bootstrapLibrary gen).1 = none)
    (hgenok : gen.generate q = Except.ok files) :
    (Generate supportedLangs cfg env w q).2.1.state =
      { lastGenerated := some (LastGeneratedQuestion.mk q.titleSlug q.questionFrontendId gen.slug) } ∧
    Event.saveState ∈ (Generate supportedLangs cfg env w q).2.2 := by
  have hgeq := generate_unfold_ok supportedLangs cfg env w q gen files hgen hsnip hboot hgenok
  rw [hgeq]
  exact ⟨rfl, by simp⟩

/-- Witness for C9 at a concrete run in which the first output's write
fails and the second succeeds: the record is persisted regardless. -/
theorem state_persisted_after_generate_witness :
    (Generate [xGen] xCfg failCreateEnv emptyWorld xQ).2.1.state =
      { lastGenerated := some (LastGeneratedQuestion.mk "t" "1" "x") } ∧
    Event.saveState ∈ (Generate [xGen] xCfg failCreateEnv emptyWorld xQ).2.2 :=
  state_persisted_after_generate [xGen] xCfg failCreateEnv emptyWorld xQ xGen [fileA, fileB]
    rfl (by decide) rfl rfl
